import Mathlib

set_option linter.unusedVariables false

/-!
Shallow embedding of the mqtt-rrp-py repository (src/src/mqtt_rrp.py and
src/src/event_emitter.py) and proofs about the claims on its specification.

Python runtime behaviour is made explicit: a call that raises an exception is
modelled as an `Except.error` carrying the exception class; stateful methods
become functions from the object state to the new state, a trace of observable
effects (events emitted, listener invocations, transport calls) and an
`Except` describing whether the call returned normally or raised.
-/

/-- Values as produced by the Python function json.loads: None, booleans,
integers, strings, lists and dicts. Floating point literals are outside the
modelled subset (no claim needs them). -/
inductive PyVal where
  | none
  | bool (b : Bool)
  | int (n : Int)
  | str (s : String)
  | list (xs : List PyVal)
  | dict (kvs : List (String × PyVal))

/-- Exception classes the embedded code can raise. -/
inductive PyErr where
  | typeError
  | keyError
  | attributeError
  | unboundLocalError
  | jsonDecodeError
  | runtimeError

/-- Modes of the JSON parser: a single value, the tail of an array, the tail
of an object. -/
inductive PMode where
  | val
  | elems
  | members

/-- Results of the JSON parser, one per mode. -/
inductive PRes where
  | v (x : PyVal)
  | vs (xs : List PyVal)
  | ms (kvs : List (String × PyVal))

/-- Drop leading JSON whitespace. -/
def skipWs : List Char → List Char
  | [] => []
  | c :: cs =>
    if c = ' ' || c = '\n' || c = '\t' || c = '\r' then skipWs cs else c :: cs

/-- Consume a run of decimal digits, accumulating their value. -/
def pDigits : List Char → Nat → Nat × List Char
  | [], acc => (acc, [])
  | c :: cs, acc =>
    if c.isDigit then pDigits cs (acc * 10 + (c.toNat - 48)) else (acc, c :: cs)

/-- Consume the body of a JSON string up to the closing quote. Escape
sequences are outside the modelled subset (no claim needs them). -/
def pStrChars : List Char → Option (List Char × List Char)
  | [] => Option.none
  | c :: cs =>
    if c = '"' then Option.some ([], cs)
    else if c = '\\' then Option.none
    else
      match pStrChars cs with
      | Option.some (body, rest) => Option.some (c :: body, rest)
      | Option.none => Option.none

/-- Consume an expected literal character sequence. -/
def matchLit : List Char → List Char → Option (List Char)
  | [], cs => Option.some cs
  | _ :: _, [] => Option.none
  | l :: ls, c :: cs => if c = l then matchLit ls cs else Option.none

/-- Fuel-indexed recursive-descent JSON parser. The opening and closing brace
characters are written as Char.ofNat 123 and Char.ofNat 125. -/
def pJ : Nat → PMode → List Char → Option (PRes × List Char)
  | 0, _, _ => Option.none
  | Nat.succ fuel, PMode.val, cs0 =>
    (match skipWs cs0 with
     | [] => Option.none
     | c :: cs =>
       if c = 'n' then
         match matchLit ['u', 'l', 'l'] cs with
         | Option.some rest => Option.some (PRes.v PyVal.none, rest)
         | Option.none => Option.none
       else if c = 't' then
         match matchLit ['r', 'u', 'e'] cs with
         | Option.some rest => Option.some (PRes.v (PyVal.bool true), rest)
         | Option.none => Option.none
       else if c = 'f' then
         match matchLit ['a', 'l', 's', 'e'] cs with
         | Option.some rest => Option.some (PRes.v (PyVal.bool false), rest)
         | Option.none => Option.none
       else if c = '"' then
         match pStrChars cs with
         | Option.some (body, rest) =>
           Option.some (PRes.v (PyVal.str (String.mk body)), rest)
         | Option.none => Option.none
       else if c = '[' then
         match skipWs cs with
         | ']' :: rest => Option.some (PRes.v (PyVal.list []), rest)
         | _ =>
           match pJ fuel PMode.elems cs with
           | Option.some (PRes.vs xs, rest) =>
             Option.some (PRes.v (PyVal.list xs), rest)
           | _ => Option.none
       else if c = Char.ofNat 123 then
         match skipWs cs with
         | [] => Option.none
         | c2 :: rest =>
           if c2 = Char.ofNat 125 then Option.some (PRes.v (PyVal.dict []), rest)
           else
             match pJ fuel PMode.members cs with
             | Option.some (PRes.ms kvs, rest2) =>
               Option.some (PRes.v (PyVal.dict kvs), rest2)
             | _ => Option.none
       else if c = '-' then
         match cs with
         | [] => Option.none
         | d :: _ =>
           if d.isDigit then
             match pDigits cs 0 with
             | (n, rest) => Option.some (PRes.v (PyVal.int (-(Int.ofNat n))), rest)
           else Option.none
       else if c.isDigit then
         match pDigits (c :: cs) 0 with
         | (n, rest) => Option.some (PRes.v (PyVal.int (Int.ofNat n)), rest)
       else Option.none)
  | Nat.succ fuel, PMode.elems, cs0 =>
    (match pJ fuel PMode.val cs0 with
     | Option.some (PRes.v x, rest) =>
       (match skipWs rest with
        | ',' :: r2 =>
          (match pJ fuel PMode.elems r2 with
           | Option.some (PRes.vs xs, r3) => Option.some (PRes.vs (x :: xs), r3)
           | _ => Option.none)
        | ']' :: r2 => Option.some (PRes.vs [x], r2)
        | _ => Option.none)
     | _ => Option.none)
  | Nat.succ fuel, PMode.members, cs0 =>
    (match skipWs cs0 with
     | '"' :: cs =>
       (match pStrChars cs with
        | Option.some (key, rest) =>
          (match skipWs rest with
           | ':' :: r2 =>
             (match pJ fuel PMode.val r2 with
              | Option.some (PRes.v x, r3) =>
                (match skipWs r3 with
                 | [] => Option.none
                 | c5 :: r4 =>
                   if c5 = ',' then
                     match pJ fuel PMode.members r4 with
                     | Option.some (PRes.ms kvs, r5) =>
                       Option.some (PRes.ms ((String.mk key, x) :: kvs), r5)
                     | _ => Option.none
                   else if c5 = Char.ofNat 125 then
                     Option.some (PRes.ms [(String.mk key, x)], r4)
                   else Option.none)
              | _ => Option.none)
           | _ => Option.none)
        | Option.none => Option.none)
     | _ => Option.none)

/-- Model of the Python function json.loads on the modelled JSON subset:
parses one value and requires only whitespace to follow, as json.loads does.
Option.none stands for json.JSONDecodeError. -/
def jsonLoads (s : String) : Option PyVal :=
  match pJ (2 * s.length + 2) PMode.val s.toList with
  | Option.some (PRes.v x, rest) =>
    if (skipWs rest).isEmpty then Option.some x else Option.none
  | _ => Option.none

/-- MQTTRequestResponseProtocol.__deserialize (src/src/mqtt_rrp.py lines
70 to 80): the body is exactly `return json.loads(payload)`. The value of a
successful parse is returned as is, with no structural validation of any
kind; a parse failure raises json.JSONDecodeError. -/
def deserialize_py (payload : String) : Except PyErr PyVal :=
  match jsonLoads payload with
  | Option.some v => Except.ok v
  | Option.none => Except.error PyErr.jsonDecodeError

/-- The TPayload class of src/src/mqtt_rrp.py lines 7 to 12: its body is only
type annotations, so the class defines no fields at runtime and, crucially,
no __init__ accepting keyword arguments. -/
structure TPayload where
  ts : Int
  data : PyVal
  from_topic : String
  request_id : Option String
  callback_id : Option String

/-- The call TPayload(ts=..., data=..., from_topic=..., request_id=...,
callback_id=...) made by __serialize (line 94): TPayload declares no
__init__, so the keyword arguments reach object.__init__, which rejects them
with TypeError ("TPayload() takes no arguments"). The call therefore raises
for every input. -/
def tpayloadCall (ts : Int) (data : PyVal) (from_topic : String)
    (request_id callback_id : Option String) : Except PyErr TPayload :=
  Except.error PyErr.typeError

/-- json.dumps applied to a TPayload instance: instances of a plain user
class are not JSON serializable, so json.dumps raises TypeError. (This layer
is unreachable because tpayloadCall already raises.) -/
def jsonDumpsTPayload (p : TPayload) : Except PyErr String :=
  Except.error PyErr.typeError

/-- MQTTRequestResponseProtocol.__serialize (src/src/mqtt_rrp.py lines 82 to
94): `return json.dumps(TPayload(ts=0, data=data, from_topic=self.identifier,
request_id=request_id, callback_id=callback_id)).encode()`. -/
def serialize_py (identifier : String) (data : PyVal)
    (request_id callback_id : Option String) : Except PyErr String :=
  match tpayloadCall 0 data identifier request_id callback_id with
  | Except.error e => Except.error e
  | Except.ok p => jsonDumpsTPayload p

/-- Listeners are opaque callables, identified by a token. -/
abbrev ListenerId := Nat

/-- The EventEmitter field `listeners : Dict[str, Set[Callable]]`, built as
defaultdict(set): an association list from event name to the registered
listener tokens. -/
abbrev Listeners := List (String × List ListenerId)

/-- Look an event name up; an absent key reads as the empty set (the
defaultdict default). -/
def lookupL : Listeners → String → List ListenerId
  | [], _ => []
  | (k, w) :: rest, e => if k == e then w else lookupL rest e

/-- The side effect of indexing a defaultdict: an absent key is inserted with
an empty set. -/
def ensureKey : Listeners → String → Listeners
  | [], e => [(e, [])]
  | (k, w) :: rest, e => if k == e then (k, w) :: rest else (k, w) :: ensureKey rest e

/-- Overwrite (or insert) the listener set stored under an event name. -/
def setKey : Listeners → String → List ListenerId → Listeners
  | [], e, v => [(e, v)]
  | (k, w) :: rest, e, v => if k == e then (k, v) :: rest else (k, w) :: setKey rest e v

/-- EventEmitter.remove_listener (src/src/event_emitter.py lines 38 to 50):
`self.listeners[event].remove(listener)`. Indexing the defaultdict inserts an
empty set for an absent event; set.remove removes a present element and
raises KeyError for an absent one. -/
def remove_listener_py (ls : Listeners) (event : String) (listener : ListenerId) :
    Listeners × Except PyErr Unit :=
  if listener ∈ lookupL (ensureKey ls event) event then
    (setKey (ensureKey ls event) event ((lookupL (ensureKey ls event) event).erase listener),
     Except.ok ())
  else
    (ensureKey ls event, Except.error PyErr.keyError)

/-- Observable effects of a coordinator call: an emit of a named event, the
invocation of a registered listener, and the two transport calls the
coordinator makes (client.subscribe and client.publish). -/
inductive Effect where
  | emitEvent (event : String) (payload : PyVal)
  | deliver (listener : ListenerId) (payload : PyVal)
  | subscribe (topics : List (String × Int))
  | publish (topic : String) (payload : String)

/-- Whether an effect is one of the transport calls. -/
def Effect.isTransportCall : Effect → Bool
  | Effect.subscribe _ => true
  | Effect.publish _ _ => true
  | _ => false

/-- EventEmitter.emit (src/src/event_emitter.py lines 64 to 76):
`for listener in self.listeners[event]: asyncio.create_task(listener(payload))`.
Indexing the defaultdict inserts an empty set for an absent event, and with
no listeners the loop body never runs, so the call returns normally. With at
least one listener, the argument listener(payload) is evaluated first (the
listener runs), and then asyncio.create_task raises: the transport invokes
these callbacks from its own thread, where no asyncio event loop is running
(and the registered listeners are plain functions, not coroutines), so the
loop aborts after the first listener. -/
def pyEmit (ls : Listeners) (event : String) (payload : PyVal) :
    Listeners × List Effect × Except PyErr Unit :=
  match lookupL (ensureKey ls event) event with
  | [] => (ensureKey ls event, [Effect.emitEvent event payload], Except.ok ())
  | l :: _ =>
    (ensureKey ls event,
     [Effect.emitEvent event payload, Effect.deliver l payload],
     Except.error PyErr.runtimeError)

/-- The state of one MQTTRequestResponseProtocol instance: the client handle,
the identifier, the stored topic list, the `initialized` flag, the (never
read) request_timeout class attribute, whether client.on_connect and
client.on_message have been assigned, and the inherited listeners dict. -/
structure Coordinator where
  client : Nat
  identifier : String
  topics : List (String × Int)
  initialized : Bool
  request_timeout : Int
  on_connect_set : Bool
  on_message_set : Bool
  listeners : Listeners

/-- A freshly constructed coordinator with identity "me" (the constructor,
src/src/mqtt_rrp.py lines 22 to 36). -/
def coord0 : Coordinator :=
  { client := 0, identifier := "me", topics := [], initialized := false,
    request_timeout := 3, on_connect_set := false, on_message_set := false,
    listeners := [] }

/-- A coordinator holding a registered listener under the event name "rid-1",
the shape request() would leave behind had it succeeded in registering one. -/
def coordPending : Coordinator :=
  { coord0 with listeners := [("rid-1", [7])] }

/-- A well formed reply envelope addressed to coordPending: a JSON object
with ts 0, data 7, from_topic "peer", request_id null and callback_id
"rid-1". -/
def replyJson : String :=
  "\x7b\"ts\":0,\"data\":7,\"from_topic\":\"peer\",\"request_id\":null,\"callback_id\":\"rid-1\"\x7d"

/-- MQTTRequestResponseProtocol.initialize (src/src/mqtt_rrp.py lines 38 to
50): stores the topic list and assigns the two client callbacks. The body
contains no check of any kind and no raise statement, so every call returns
normally. -/
def initialize_py (st : Coordinator) (topics : List (String × Int)) :
    Except PyErr Coordinator :=
  Except.ok { st with topics := topics, on_connect_set := true, on_message_set := true }

/-- MQTTRequestResponseProtocol.__on_connect (src/src/mqtt_rrp.py lines 96 to
114). On rc == 0 the code sets self.initialized = True and then calls
self.emit("connected") with no payload argument; EventEmitter.emit requires a
payload, so the call raises TypeError at argument binding and
self.client.subscribe(self.topics) on the next line is never reached. On a
non-zero rc the code only calls self.emit("error", rc). -/
def on_connect_py (st : Coordinator) (rc : Int) :
    Coordinator × List Effect × Except PyErr Unit :=
  if rc = 0 then
    ({ st with initialized := true }, [], Except.error PyErr.typeError)
  else
    let r := pyEmit st.listeners "error" (PyVal.int rc)
    ({ st with listeners := r.1 }, r.2.1, r.2.2)

/-- Attribute access payload.callback_id (and payload.data) on a value
returned by json.loads: such a value is a dict, list, str, int, bool or
None, and none of these carries the envelope attributes, so Python raises
AttributeError. json.loads never builds TPayload instances. -/
def pyGetAttr (v : PyVal) (attr : String) : Except PyErr PyVal :=
  Except.error PyErr.attributeError

/-- MQTTRequestResponseProtocol.__on_message (src/src/mqtt_rrp.py lines 116
to 137). If __deserialize raises, the except block emits the error event
naming the topic but does not return, so control reaches the line
`if payload.callback_id is not None ...` with the local variable payload
unbound, raising UnboundLocalError (unless the emit itself raised first, in
which case that exception propagates). If __deserialize returns, the same
line performs attribute access on the plain json.loads value, which raises
AttributeError; the routing below it is kept for structural fidelity but is
unreachable. -/
def on_message_py (st : Coordinator) (topic : String) (payload_bytes : String) :
    Coordinator × List Effect × Except PyErr Unit :=
  match deserialize_py payload_bytes with
  | Except.error _ =>
    let r := pyEmit st.listeners "error"
      (PyVal.str ("Invalid payload. Topic: " ++ topic))
    ({ st with listeners := r.1 }, r.2.1,
     match r.2.2 with
     | Except.error e => Except.error e
     | Except.ok _ => Except.error PyErr.unboundLocalError)
  | Except.ok payload =>
    match pyGetAttr payload "callback_id" with
    | Except.error e => (st, [], Except.error e)
    | Except.ok cb =>
      if (match cb with | PyVal.none => false | _ => true)
          && topic == st.identifier then
        let ev := (match cb with | PyVal.str s => s | _ => "")
        let r := pyEmit st.listeners ev payload
        ({ st with listeners := r.1 }, r.2.1, r.2.2)
      else
        let r := pyEmit st.listeners "message" payload
        ({ st with listeners := r.1 }, r.2.1, r.2.2)

/-- MQTTRequestResponseProtocol.request (src/src/mqtt_rrp.py lines 154 to
178), with the generated uuid passed in as request_id. The first statement
after generating the id is payload = self.__serialize(data,
request_id=request_id), which raises TypeError (see tpayloadCall), so the
function aborts before publishing, before creating the future and before
registering any listener. The continuation is kept for structural fidelity:
were serialization to succeed, the code would publish, create an
asyncio.Future and then call self.listeners[request_id].append(...), and a
set has no append method, so that line would raise AttributeError; the
return line 178 (future.then, a method asyncio.Future does not have) is
never reached either way. -/
def request_py (st : Coordinator) (topic : String) (data : PyVal)
    (request_id : String) (return_full : Bool) :
    Coordinator × List Effect × Except PyErr Unit :=
  match serialize_py st.identifier data (Option.some request_id) Option.none with
  | Except.error e => (st, [], Except.error e)
  | Except.ok payload =>
    ({ st with listeners := ensureKey st.listeners request_id },
     [Effect.publish topic payload], Except.error PyErr.attributeError)

/-- Look a key up in a decoded JSON object. -/
def dlookup (kvs : List (String × PyVal)) (k : String) : Option PyVal :=
  (kvs.find? (fun p => p.1 == k)).map (fun p => p.2)

/-- A field that, per the wire format table of the spec, is a string or
absent (null standing for absent in the encoding). -/
def optStrField (kvs : List (String × PyVal)) (k : String) : Bool :=
  match dlookup kvs k with
  | Option.none => true
  | Option.some (PyVal.str _) => true
  | Option.some PyVal.none => true
  | _ => false

/-- Follows the wording of the spec, not the source: a structurally valid
envelope is a JSON object with an integer ts, a data field, a string
from_topic, and request_id / callback_id each a string or absent. Used to
compare what __deserialize actually returns against what the spec demands of
deserialize. -/
def specValidEnvelope : PyVal → Bool
  | PyVal.dict kvs =>
    (match dlookup kvs "ts" with
     | Option.some (PyVal.int _) => true
     | _ => false)
    && (dlookup kvs "data").isSome
    && (match dlookup kvs "from_topic" with
        | Option.some (PyVal.str _) => true
        | _ => false)
    && optStrField kvs "request_id"
    && optStrField kvs "callback_id"
  | _ => false

/-! Helper lemmas about the listener dictionary and emit. -/

/-- Inserting the defaultdict default for an event does not change what is
read back for that event. -/
theorem lookupL_ensureKey (ls : Listeners) (e : String) :
    lookupL (ensureKey ls e) e = lookupL ls e := by
  induction ls with
  | nil => simp [ensureKey, lookupL]
  | cons hd tl ih =>
    obtain ⟨k, w⟩ := hd
    by_cases hk : (k == e) = true
    · simp [ensureKey, lookupL, hk]
    · simp [ensureKey, lookupL, hk, ih]

/-- Reading back an event after overwriting its listener set yields the
written set. -/
theorem lookupL_setKey (ls : Listeners) (e : String) (v : List ListenerId) :
    lookupL (setKey ls e v) e = v := by
  induction ls with
  | nil => simp [setKey, lookupL]
  | cons hd tl ih =>
    obtain ⟨k, w⟩ := hd
    by_cases hk : (k == e) = true
    · simp [setKey, lookupL, hk]
    · simp [setKey, lookupL, hk, ih]

/-- Every emit call records the emitted event in its effect trace. -/
theorem pyEmit_effects_head (ls : Listeners) (ev : String) (p : PyVal) :
    Effect.emitEvent ev p ∈ (pyEmit ls ev p).2.1 := by
  unfold pyEmit
  cases lookupL (ensureKey ls ev) ev <;> simp

/-- An emit call never performs a transport call (no subscribe, no publish). -/
theorem pyEmit_no_transport (ls : Listeners) (ev : String) (p : PyVal) :
    ∀ e ∈ (pyEmit ls ev p).2.1, Effect.isTransportCall e = false := by
  unfold pyEmit
  cases lookupL (ensureKey ls ev) ev with
  | nil => intro e he; simp at he; subst he; rfl
  | cons l rest => intro e he; simp at he; rcases he with h | h <;> subst h <;> rfl

/-! Claim theorems. -/

/-- C1: the claim says an inbound envelope whose callback_id equals a pending
requestId, arriving on the coordinator's own identity topic, resolves the
pending request with the envelope (or its data) and emits no message event.
In the code this never happens: __on_message evaluates payload.callback_id on
the plain dict returned by json.loads, which raises AttributeError, so the
handler crashes with no event emitted and the registered listener never
invoked; and request() itself raises TypeError while serializing (TPayload
has no initializer), so a pending request is never even created. -/
theorem reply_routing_crashes :
    on_message_py coordPending "me" replyJson
      = (coordPending, [], Except.error PyErr.attributeError) ∧
    request_py coord0 "svc" (PyVal.int 7) "rid-1" true
      = (coord0, [], Except.error PyErr.typeError) :=
  ⟨rfl, rfl⟩

/-- C2: the claim says a request with no reply fails with RequestTimedOut
after request_timeout and the pending slot is removed. In the code the
request_timeout attribute is never read and no timer exists: whatever value
it holds, request() behaves identically — it raises TypeError during
serialization, before any slot could exist, and no timeout outcome is
possible. -/
theorem request_ignores_timeout (rt : Int) :
    request_py { coord0 with request_timeout := rt } "svc" (PyVal.int 1) "rid-0" false
      = ({ coord0 with request_timeout := rt }, [], Except.error PyErr.typeError) := rfl

/-- C3: the claim says each outstanding request resolves exactly once,
Pending going to Resolved or TimedOut. In the code the Pending state is never
entered: every request() call, for every state and every argument, raises
TypeError at serialization and leaves the coordinator unchanged, so the
claimed state machine (and the reply/timeout mutual exclusion) has no
realization. -/
theorem request_always_raises (st : Coordinator) (topic : String) (data : PyVal)
    (request_id : String) (return_full : Bool) :
    request_py st topic data request_id return_full
      = (st, [], Except.error PyErr.typeError) := rfl

/-- C4: the claim says non-decodable bytes produce an error event naming the
topic, no further routing, and no crash of the inbound path. The code emits
the error event but the except block does not return: the handler then reads
the unbound local payload and raises UnboundLocalError, crashing the inbound
handler. -/
theorem malformed_payload_crashes :
    on_message_py coord0 "sensors" "garbage"
      = ({ coord0 with listeners := [("error", [])] },
         [Effect.emitEvent "error" (PyVal.str "Invalid payload. Topic: sensors")],
         Except.error PyErr.unboundLocalError) := rfl

/-- C5 counterexample: deserialize applied to the bytes "42" (valid JSON, not
an envelope: required fields missing, wrong type) succeeds and returns the
integer 42 as is, instead of failing with a MalformedPayload outcome. -/
theorem deserialize_accepts_non_envelope :
    deserialize_py "42" = Except.ok (PyVal.int 42) ∧
    specValidEnvelope (PyVal.int 42) = false :=
  ⟨rfl, rfl⟩

/-- C5 (amended): deserialize is a bare json.loads: for every input it either
returns the parsed value unvalidated or fails with the JSON decode error; no
other failure mode exists, so arbitrary byte content cannot produce a fault
of another kind, but structural validation of the envelope never happens. -/
theorem deserialize_failures_typed (s : String) :
    (∃ v, deserialize_py s = Except.ok v) ∨
    deserialize_py s = Except.error PyErr.jsonDecodeError := by
  unfold deserialize_py
  cases jsonLoads s with
  | none => exact Or.inr rfl
  | some v => exact Or.inl ⟨v, rfl⟩

/-- C6: the claim says deserialize(serialize(data, rid, cid)).data equals
data. In the code serialize never produces bytes: the TPayload keyword
construction raises TypeError for every input, here at data 42, request id
"r", no callback id, so the round trip property has no instance. -/
theorem serialize_raises_type_error :
    serialize_py "me" (PyVal.int 42) (Option.some "r") Option.none
      = Except.error PyErr.typeError := rfl

/-- C7: the claim says a zero connect result leads to Connected, a connected
event and one subscribe call with the stored list. In the code the success
branch sets the initialized flag and then calls emit("connected") without the
payload argument that EventEmitter.emit requires, raising TypeError: no
connected event is delivered and client.subscribe is never reached, for every
coordinator state. -/
theorem connect_success_crashes_before_subscribe (st : Coordinator) :
    on_connect_py st 0
      = ({ st with initialized := true }, [], Except.error PyErr.typeError) := rfl

/-- C8 counterexample: a second initialize call on an already initialized
coordinator does not fail with AlreadyInitialized: it returns normally and
overwrites the stored subscription list. -/
theorem initialize_twice_succeeds :
    initialize_py
      { coord0 with topics := [("a", 0)], on_connect_set := true, on_message_set := true }
      [("b", 1)]
      = Except.ok
        { coord0 with topics := [("b", 1)], on_connect_set := true, on_message_set := true } :=
  rfl

/-- C8 (amended): initialize stores the subscription list and binds the two
inbound handlers on every call; there is no already-initialized check, so a
second call succeeds as well, overwriting the stored list and rebinding the
handlers. -/
theorem initialize_overwrites (st : Coordinator) (t1 t2 : List (String × Int)) :
    initialize_py st t1
      = Except.ok { st with topics := t1, on_connect_set := true, on_message_set := true } ∧
    initialize_py { st with topics := t1, on_connect_set := true, on_message_set := true } t2
      = Except.ok { st with topics := t2, on_connect_set := true, on_message_set := true } :=
  ⟨rfl, rfl⟩

/-- C9 counterexample: removing a listener that is not registered is not a
no-op: remove_listener raises KeyError (and the defaultdict lookup inserts an
empty listener set for the event). -/
theorem remove_absent_listener_raises :
    remove_listener_py [] "e" 0 = ([("e", [])], Except.error PyErr.keyError) := rfl

/-- C9 (amended): remove_listener unregisters the listener and returns
normally exactly when the listener is registered for the event; when it is
absent the call raises KeyError instead of being a no-op. In both cases the
listener set read back afterwards is the previous set with the listener
erased. -/
theorem remove_listener_behavior (ls : Listeners) (e : String) (l : ListenerId) :
    ((remove_listener_py ls e l).2 = Except.ok () ↔ l ∈ lookupL ls e) ∧
    lookupL (remove_listener_py ls e l).1 e = (lookupL ls e).erase l := by
  unfold remove_listener_py
  by_cases h : l ∈ lookupL ls e
  · have h2 : l ∈ lookupL (ensureKey ls e) e := by rw [lookupL_ensureKey]; exact h
    rw [if_pos h2]
    refine ⟨by simp [h], ?_⟩
    rw [lookupL_setKey, lookupL_ensureKey]
  · have h2 : l ∉ lookupL (ensureKey ls e) e := by rw [lookupL_ensureKey]; exact h
    rw [if_neg h2]
    refine ⟨by simp [h], ?_⟩
    rw [lookupL_ensureKey, List.erase_of_not_mem h]

/-- C9 witness: remove_listener_behavior at a concrete emitter holding
listener 3 under event "e". -/
theorem remove_listener_behavior_witness :
    ((remove_listener_py [("e", [3])] "e" 3).2 = Except.ok ()
       ↔ 3 ∈ lookupL [("e", [3])] "e") ∧
    lookupL (remove_listener_py [("e", [3])] "e" 3).1 "e"
      = (lookupL [("e", [3])] "e").erase 3 :=
  remove_listener_behavior [("e", [3])] "e" 3

/-- C10: for every non-zero connect result code the handler leaves the
initialized flag, the stored topics, the identifier and the client handle of
the coordinator unchanged, records no failure state, and its effects are
exactly those of emitting the error event with the code — in particular the
error event is emitted and no subscribe or publish call is made. -/
theorem connect_failure_frame (st : Coordinator) (rc : Int) (h : rc ≠ 0) :
    (on_connect_py st rc).1.initialized = st.initialized ∧
    (on_connect_py st rc).1.topics = st.topics ∧
    (on_connect_py st rc).1.identifier = st.identifier ∧
    (on_connect_py st rc).1.client = st.client ∧
    (on_connect_py st rc).2.1 = (pyEmit st.listeners "error" (PyVal.int rc)).2.1 ∧
    Effect.emitEvent "error" (PyVal.int rc) ∈ (on_connect_py st rc).2.1 ∧
    ∀ e ∈ (on_connect_py st rc).2.1, Effect.isTransportCall e = false := by
  unfold on_connect_py
  rw [if_neg h]
  exact ⟨rfl, rfl, rfl, rfl, rfl, pyEmit_effects_head _ _ _, pyEmit_no_transport _ _ _⟩

/-- C10 witness: connect_failure_frame at the fresh coordinator and result
code 5. -/
theorem connect_failure_frame_witness :
    (on_connect_py coord0 5).1.initialized = coord0.initialized ∧
    (on_connect_py coord0 5).1.topics = coord0.topics ∧
    (on_connect_py coord0 5).1.identifier = coord0.identifier ∧
    (on_connect_py coord0 5).1.client = coord0.client ∧
    (on_connect_py coord0 5).2.1 = (pyEmit coord0.listeners "error" (PyVal.int 5)).2.1 ∧
    Effect.emitEvent "error" (PyVal.int 5) ∈ (on_connect_py coord0 5).2.1 ∧
    ∀ e ∈ (on_connect_py coord0 5).2.1, Effect.isTransportCall e = false :=
  connect_failure_frame coord0 5 (by decide)
